import Mathlib

/-!
Shallow embedding of `src/collect_data.py` (the system-resource sampling
tool).  Floating-point readings are modelled as rationals, byte counters as
naturals, and the external process-metrics provider (psutil) as explicit
per-tick input data.  Per-process provider failures (NoSuchProcess,
AccessDenied, ZombieProcess) are modelled as `none` readings; system-wide
fatal provider errors are modelled as a `fatal` tick outcome.
-/

namespace CollectData

/-- One process as returned by the provider's enumeration during one tick.
`enumName` is `some n` when reading the process name during enumeration
succeeds (the `proc.info['name']` access in `_find_processes_by_name`) and
`none` when it raises one of the caught per-process errors.  `readVal` is
`some (cpu, rss)` when the later metric read in `_aggregate_process_metrics`
succeeds, giving the CPU percent and resident-set bytes, and `none` when
that read raises one of the same per-process errors. -/
structure ProcInfo where
  enumName : Option String
  readVal : Option (ℚ × ℚ)
deriving DecidableEq

/-- Tests whether `needle` is an initial segment of `hay`. -/
def startsWith : List Char → List Char → Bool
  | [], _ => true
  | _ :: _, [] => false
  | a :: as, b :: bs => a == b && startsWith as bs

/-- Tests whether `needle` occurs contiguously inside `hay`, as the Python
`in` operator does on strings. -/
def containsSub : List Char → List Char → Bool
  | needle, [] => startsWith needle []
  | needle, c :: t => startsWith needle (c :: t) || containsSub needle t

/-- Lower-cases a string into its character list, modelling Python's
`str.lower()`. -/
def lowerChars (s : String) : List Char :=
  s.data.map Char.toLower

/-- Case-insensitive substring match, the test on line 66 of
`collect_data.py`: `app_name.lower() in proc_name.lower()`. -/
def nameMatches (app_name proc_name : String) : Bool :=
  containsSub (lowerChars app_name) (lowerChars proc_name)

/-- `SystemMonitor._find_processes_by_name`: keep every enumerated process
whose name read succeeds and contains the pattern case-insensitively;
processes whose name read raises are skipped by the `except` clause. -/
def find_processes_by_name (app_name : String) (procs : List ProcInfo) :
    List ProcInfo :=
  procs.filter fun p =>
    match p.enumName with
    | some n => nameMatches app_name n
    | none => false

/-- The accumulation loop of `_aggregate_process_metrics` (lines 89–98):
each surviving read adds its CPU percent and `rss / memTotal * 100` to the
running totals; a failing read is skipped by the `except` clause. -/
def aggregate_go (memTotal : ℚ) :
    List ProcInfo → ℚ × ℚ → ℚ × ℚ
  | [], acc => acc
  | p :: rest, acc =>
    match p.readVal with
    | some cr => aggregate_go memTotal rest (acc.1 + cr.1, acc.2 + cr.2 / memTotal * 100)
    | none => aggregate_go memTotal rest acc

/-- `SystemMonitor._aggregate_process_metrics`: returns `(0, 0)` on an empty
handle list (lines 83–84), otherwise folds the accumulation loop from
`(0, 0)`.  `memTotal` is `psutil.virtual_memory().total`. -/
def aggregate_process_metrics (memTotal : ℚ) (procs : List ProcInfo) : ℚ × ℚ :=
  if procs.isEmpty then (0, 0)
  else aggregate_go memTotal procs (0, 0)

/-- The readings of the handles whose metric read succeeds, in list order. -/
def survivors (procs : List ProcInfo) : List (ℚ × ℚ) :=
  procs.filterMap ProcInfo.readVal

/-- Boolean check that every successful reading in the list is componentwise
non-negative (the provider-side assumption of the aggregation claims). -/
def readsNonneg (procs : List ProcInfo) : Bool :=
  procs.all fun p =>
    match p.readVal with
    | some cr => decide (0 ≤ cr.1) && decide (0 ≤ cr.2)
    | none => true

/-- One snapshot, the dict built on lines 124–134 of `_collect_snapshot`,
with fields in the source's insertion order. -/
structure Snapshot where
  timestamp : ℚ
  total_system_cpu_percent : ℚ
  total_system_memory_percent : ℚ
  network_bytes_sent : ℕ
  network_bytes_recv : ℕ
  app_A_cpu_percent : ℚ
  app_A_memory_percent : ℚ
  app_B_cpu_percent : ℚ
  app_B_memory_percent : ℚ
deriving DecidableEq

/-- Everything the external provider supplies during one successful tick:
the wall-clock instant, the system-wide CPU and memory readings, the
cumulative network counters, total physical memory, and the two process
enumerations seen by the two `_find_processes_by_name` calls. -/
structure TickInput where
  timestamp : ℚ
  sysCpu : ℚ
  sysMem : ℚ
  netSent : ℕ
  netRecv : ℕ
  memTotal : ℚ
  procsFg : List ProcInfo
  procsBg : List ProcInfo
deriving DecidableEq

/-- `SystemMonitor._collect_snapshot`: assembles one snapshot from the
tick's provider data, resolving and aggregating each application. -/
def collect_snapshot (fg bg : String) (inp : TickInput) : Snapshot :=
  let a := aggregate_process_metrics inp.memTotal (find_processes_by_name fg inp.procsFg)
  let b := aggregate_process_metrics inp.memTotal (find_processes_by_name bg inp.procsBg)
  { timestamp := inp.timestamp
    total_system_cpu_percent := inp.sysCpu
    total_system_memory_percent := inp.sysMem
    network_bytes_sent := inp.netSent
    network_bytes_recv := inp.netRecv
    app_A_cpu_percent := a.1
    app_A_memory_percent := a.2
    app_B_cpu_percent := b.1
    app_B_memory_percent := b.2 }

/-- What the provider does during one tick: either it supplies a full set
of readings, or some system-wide read raises a fatal error (an exception
that is not one of the caught per-process classes). -/
inductive TickOutcome where
  | ok (inp : TickInput)
  | fatal
deriving DecidableEq

/-- One scripted loop iteration: the provider outcome, plus whether a
SIGINT/SIGTERM arrives at some point during this iteration (anywhere after
the loop-top check of `self.running`; the handler on lines 45–48 only sets
`self.running = False`). -/
structure TickStep where
  outcome : TickOutcome
  signalDuringTick : Bool
deriving DecidableEq

/-- How the `while` loop in `SystemMonitor.run` was left. -/
inductive RunExit where
  | stopped
  /-- an exception other than `KeyboardInterrupt` escaped the `try` block,
  so control left `run` without reaching the save code -/
  | fatalEscape
  /-- model artifact: the finite script ended while `self.running` was
  still true (the real loop would keep iterating) -/
  | outOfScript
deriving DecidableEq

/-- The `while self.running` loop of `SystemMonitor.run` (lines 153–161):
at the top of each iteration the stop flag is checked; a successful tick
builds a full snapshot and appends it to the buffer; a fatal provider error
escapes immediately; `time.sleep(interval)` with a negative interval raises
`ValueError`, which is likewise uncaught; a signal delivered during the
iteration flips the flag, which takes effect at the next loop-top check. -/
def runLoop (fg bg : String) (interval : ℚ) :
    Bool → List TickStep → List Snapshot → List Snapshot × RunExit
  | false, _, buf => (buf, .stopped)
  | true, [], buf => (buf, .outOfScript)
  | true, step :: rest, buf =>
    match step.outcome with
    | .fatal => (buf, .fatalEscape)
    | .ok inp =>
      let buf2 := buf ++ [collect_snapshot fg bg inp]
      if interval < 0 then (buf2, .fatalEscape)
      else runLoop fg bg interval (!step.signalDuringTick) rest buf2

/-- One cell of the persisted CSV, holding the raw untransformed value. -/
inductive Cell where
  | strVal (s : String)
  | ratVal (x : ℚ)
  | natVal (n : ℕ)
deriving DecidableEq

/-- The header row: pandas `to_csv` writes the DataFrame columns, which are
the snapshot dict's keys in insertion order. -/
def csvHeader : List Cell :=
  [.strVal "timestamp", .strVal "total_system_cpu_percent",
   .strVal "total_system_memory_percent", .strVal "network_bytes_sent",
   .strVal "network_bytes_recv", .strVal "app_A_cpu_percent",
   .strVal "app_A_memory_percent", .strVal "app_B_cpu_percent",
   .strVal "app_B_memory_percent"]

/-- One data row: the snapshot's values in the same fixed column order,
written raw. -/
def snapshotRow (s : Snapshot) : List Cell :=
  [.ratVal s.timestamp, .ratVal s.total_system_cpu_percent,
   .ratVal s.total_system_memory_percent, .natVal s.network_bytes_sent,
   .natVal s.network_bytes_recv, .ratVal s.app_A_cpu_percent,
   .ratVal s.app_A_memory_percent, .ratVal s.app_B_cpu_percent,
   .ratVal s.app_B_memory_percent]

/-- The file produced by `df.to_csv(output_path, index=False)` on a
non-empty buffer: header row then one row per snapshot in session order. -/
def to_csv (buf : List Snapshot) : List (List Cell) :=
  csvHeader :: buf.map snapshotRow

/-- Result of the save code on lines 166–174 of `run`. -/
inductive FlushResult where
  /-- the buffer was non-empty and this file content was written -/
  | wrote (rows : List (List Cell))
  /-- the buffer was empty: "No data collected." is printed and no file is
  written -/
  | noData
deriving DecidableEq

/-- The save code on lines 166–174 of `run`: writes the CSV when the buffer
is non-empty and otherwise only reports that there is no data. -/
def flush (buf : List Snapshot) : FlushResult :=
  if buf.isEmpty then .noData else .wrote (to_csv buf)

/-- Outcome of one whole invocation of `SystemMonitor.run`. -/
structure RunResult where
  buffer : List Snapshot
  exit : RunExit
  output : Option FlushResult
deriving DecidableEq

/-- `SystemMonitor.run` on a tick script: runs the loop from an empty
buffer with `self.running = True`; the save code executes only when the
loop exits through the stop flag, because an escaping exception leaves
`run` before line 166. -/
def run (fg bg : String) (interval : ℚ)
    (script : List TickStep) : RunResult :=
  match runLoop fg bg interval true script [] with
  | (buf, RunExit.stopped) => ⟨buf, .stopped, some (flush buf)⟩
  | (buf, e) => ⟨buf, e, none⟩

/-- A successful tick step with a given signal-arrival bit. -/
def okStep (inp : TickInput) (sig : Bool) : TickStep :=
  ⟨.ok inp, sig⟩

/-- A tick on which a system-wide provider read raises fatally. -/
def fatalStep : TickStep :=
  ⟨.fatal, false⟩

/-- Script for a run of exactly the given ticks in which the shutdown
signal arrives during the last tick. -/
def mkSignalScript : List TickInput → List TickStep
  | [] => []
  | [i] => [okStep i true]
  | i :: j :: rest => okStep i false :: mkSignalScript (j :: rest)

/-- A concrete tick input used by the closed evaluation theorems; resident
sizes are in bytes against a total memory of 1000 so the percentages come
out exact. -/
def demoInput (t : ℚ) : TickInput :=
  { timestamp := t
    sysCpu := 12
    sysMem := 55
    netSent := 1000
    netRecv := 2000
    memTotal := 1000
    procsFg := [⟨some "Code Helper", some (7, 320)⟩, ⟨some "chrome", some (9, 100)⟩]
    procsBg := [⟨some "Spotify", some (3, 210)⟩, ⟨none, none⟩] }

/-- A concrete handle list in which the middle process fails mid-read. -/
def wProcs : List ProcInfo :=
  [⟨some "Code Helper", some (5, 30)⟩, ⟨some "Code", none⟩, ⟨some "code", some (3, 70)⟩]

/-- A concrete process table in which every enumeration succeeds. -/
def allProcsDemo : List ProcInfo :=
  [⟨some "alpha", some (10, 2)⟩, ⟨some "beta", some (5, 4)⟩]

/-- Two concrete ticks, used to instantiate the full-run theorems. -/
def wInputs : List TickInput :=
  [demoInput 1, demoInput 2]

/-- Four successful ticks followed by a fatal provider error on tick 5. -/
def fatalScript : List TickStep :=
  [okStep (demoInput 1) false, okStep (demoInput 2) false,
   okStep (demoInput 3) false, okStep (demoInput 4) false, fatalStep]

/-- A concrete snapshot for the persistence-format theorems. -/
def demoSnap : Snapshot :=
  collect_snapshot "code" "spotify" (demoInput 1)

theorem aggregate_go_eq (m : ℚ) (procs : List ProcInfo) (a b : ℚ) :
    aggregate_go m procs (a, b)
      = (a + ((survivors procs).map Prod.fst).sum,
         b + ((survivors procs).map fun cr => cr.2 / m * 100).sum) := by
  induction procs generalizing a b with
  | nil => simp [aggregate_go, survivors]
  | cons p rest ih =>
    cases h : p.readVal with
    | none => simp [aggregate_go, h, survivors, List.filterMap_cons, ih]
    | some cr =>
      simp only [aggregate_go, h]
      rw [ih]
      simp [survivors, List.filterMap_cons, h, add_assoc]

theorem readsNonneg_survivors (procs : List ProcInfo)
    (hr : readsNonneg procs = true) :
    ∀ cr ∈ survivors procs, 0 ≤ cr.1 ∧ 0 ≤ cr.2 := by
  intro cr hcr
  rw [survivors, List.mem_filterMap] at hcr
  obtain ⟨p, hp, hread⟩ := hcr
  rw [readsNonneg, List.all_eq_true] at hr
  have hh := hr p hp
  rw [hread] at hh
  simpa using hh

/-- C5: on the empty handle list, `_aggregate_process_metrics` returns
exactly the pair `(0.0, 0.0)` (the early return on lines 83–84). -/
theorem aggregate_empty_pair (memTotal : ℚ) :
    aggregate_process_metrics memTotal [] = (0, 0) := rfl

/-- C3: when an arbitrary subset of the handles fails during the read,
`_aggregate_process_metrics` returns the sums of CPU percent and memory
percent over only the surviving readings, and — the reads being total
functions in the model, so no error is ever raised — under the assumption
that surviving readings are non-negative and total memory is positive, both
components of the (always finite, rational) result are ≥ 0. -/
theorem aggregate_survivor_sum (memTotal : ℚ) (procs : List ProcInfo)
    (hm : 0 < memTotal) (hr : readsNonneg procs = true) :
    aggregate_process_metrics memTotal procs
        = (((survivors procs).map Prod.fst).sum,
           ((survivors procs).map fun cr => cr.2 / memTotal * 100).sum)
      ∧ 0 ≤ (aggregate_process_metrics memTotal procs).1
      ∧ 0 ≤ (aggregate_process_metrics memTotal procs).2 := by
  have heq : aggregate_process_metrics memTotal procs
      = (((survivors procs).map Prod.fst).sum,
         ((survivors procs).map fun cr => cr.2 / memTotal * 100).sum) := by
    cases procs with
    | nil => simp [aggregate_process_metrics, survivors]
    | cons p rest =>
      rw [aggregate_process_metrics, if_neg (by simp), aggregate_go_eq]
      simp
  refine ⟨heq, ?_, ?_⟩
  · rw [heq]
    apply List.sum_nonneg
    intro x hx
    rw [List.mem_map] at hx
    obtain ⟨cr, hcr, hxeq⟩ := hx
    rw [← hxeq]
    exact (readsNonneg_survivors procs hr cr hcr).1
  · rw [heq]
    apply List.sum_nonneg
    intro x hx
    rw [List.mem_map] at hx
    obtain ⟨cr, hcr, hxeq⟩ := hx
    rw [← hxeq]
    have h2 := (readsNonneg_survivors procs hr cr hcr).2
    exact mul_nonneg (div_nonneg h2 hm.le) (by norm_num)

/-- Witness for C3 at a concrete list with one mid-read failure. -/
theorem aggregate_survivor_sum_witness :
    aggregate_process_metrics 100 wProcs
        = (((survivors wProcs).map Prod.fst).sum,
           ((survivors wProcs).map fun cr => cr.2 / (100 : ℚ) * 100).sum)
      ∧ 0 ≤ (aggregate_process_metrics 100 wProcs).1
      ∧ 0 ≤ (aggregate_process_metrics 100 wProcs).2 :=
  aggregate_survivor_sum 100 wProcs (by decide) (by decide)

theorem containsSub_nil_needle (hay : List Char) : containsSub [] hay = true := by
  cases hay <;> rfl

theorem nameMatches_empty_pattern (n : String) : nameMatches "" n = true := by
  have h : lowerChars "" = [] := rfl
  rw [nameMatches, h, containsSub_nil_needle]

/-- C4: a process is kept by `_find_processes_by_name` exactly when its
enumeration succeeded and its lowercased name contains the lowercased
pattern as a substring (processes whose enumeration raises are silently
excluded); concretely, pattern `"code"` matches `"Code Helper"`,
`"VSCODE"`, `"code"`, and also `"decode"`. -/
theorem resolver_substring_match (pattern : String) (procs : List ProcInfo)
    (p : ProcInfo) :
    (p ∈ find_processes_by_name pattern procs
        ↔ p ∈ procs ∧ ∃ n, p.enumName = some n ∧ nameMatches pattern n = true)
      ∧ nameMatches "code" "Code Helper" = true
      ∧ nameMatches "code" "VSCODE" = true
      ∧ nameMatches "code" "code" = true
      ∧ nameMatches "code" "decode" = true := by
  refine ⟨?_, by decide, by decide, by decide, by decide⟩
  rw [find_processes_by_name, List.mem_filter]
  constructor
  · rintro ⟨hmem, hpred⟩
    refine ⟨hmem, ?_⟩
    cases h : p.enumName with
    | none => rw [h] at hpred; exact absurd hpred (by simp)
    | some n => rw [h] at hpred; exact ⟨n, rfl, hpred⟩
  · rintro ⟨hmem, n, hn, hmatch⟩
    refine ⟨hmem, ?_⟩
    rw [hn]
    exact hmatch

/-- C10: the empty pattern is contained in every name, so
`_find_processes_by_name ""` returns every process whose enumeration
succeeded, and aggregation then sums over the whole table instead of
returning `(0.0, 0.0)` — shown concretely on a two-process table. -/
theorem empty_selector_matches_all (procs : List ProcInfo) :
    find_processes_by_name "" procs = procs.filter (fun p => p.enumName.isSome)
      ∧ find_processes_by_name "" allProcsDemo = allProcsDemo
      ∧ aggregate_process_metrics 100 (find_processes_by_name "" allProcsDemo)
          = (15, 6)
      ∧ aggregate_process_metrics 100 (find_processes_by_name "" allProcsDemo)
          ≠ (0, 0) := by
  have hfind : find_processes_by_name "" allProcsDemo = allProcsDemo := by
    simp [find_processes_by_name, allProcsDemo, nameMatches_empty_pattern]
  have hagg : aggregate_process_metrics 100 (find_processes_by_name "" allProcsDemo)
      = (15, 6) := by
    rw [hfind]
    norm_num [aggregate_process_metrics, allProcsDemo, aggregate_go]
  refine ⟨?_, hfind, hagg, by rw [hagg]; norm_num [Prod.ext_iff]⟩
  rw [find_processes_by_name]
  apply List.filter_congr
  intro p _
  cases h : p.enumName <;> simp [h, nameMatches_empty_pattern]

theorem flush_cons (s : Snapshot) (rest : List Snapshot) :
    flush (s :: rest) = .wrote (to_csv (s :: rest)) := rfl

/-- C9: the save code on an empty buffer reports "no data", never writes a
file, and — `flush` being a pure function of the unchanged empty buffer —
any number of repeated flushes each report "no data" and write nothing. -/
theorem flush_empty_idempotent :
    flush ([] : List Snapshot) = FlushResult.noData
      ∧ (∀ rows, flush ([] : List Snapshot) ≠ FlushResult.wrote rows)
      ∧ ∀ n : ℕ, List.replicate n (flush ([] : List Snapshot))
          = List.replicate n FlushResult.noData :=
  ⟨rfl, fun _ h => FlushResult.noConfusion h, fun _ => rfl⟩

/-- C8: on a non-empty buffer of N snapshots the persisted file is the
header row followed by exactly N data rows, one per snapshot in session
order, each row holding the snapshot's raw values in the fixed column
order timestamp, total_system_cpu_percent, total_system_memory_percent,
network_bytes_sent, network_bytes_recv, app_A_cpu_percent,
app_A_memory_percent, app_B_cpu_percent, app_B_memory_percent. -/
theorem flush_nonempty_format (buf : List Snapshot) (h : buf ≠ []) :
    flush buf
        = FlushResult.wrote (csvHeader :: buf.map fun s =>
            [Cell.ratVal s.timestamp, Cell.ratVal s.total_system_cpu_percent,
             Cell.ratVal s.total_system_memory_percent,
             Cell.natVal s.network_bytes_sent, Cell.natVal s.network_bytes_recv,
             Cell.ratVal s.app_A_cpu_percent, Cell.ratVal s.app_A_memory_percent,
             Cell.ratVal s.app_B_cpu_percent, Cell.ratVal s.app_B_memory_percent])
      ∧ (to_csv buf).length = buf.length + 1 := by
  cases buf with
  | nil => exact absurd rfl h
  | cons s rest => exact ⟨rfl, by simp [to_csv]⟩

/-- Witness for C8 on a one-snapshot session. -/
theorem flush_nonempty_format_witness :
    flush [demoSnap]
        = FlushResult.wrote (csvHeader :: [demoSnap].map fun s =>
            [Cell.ratVal s.timestamp, Cell.ratVal s.total_system_cpu_percent,
             Cell.ratVal s.total_system_memory_percent,
             Cell.natVal s.network_bytes_sent, Cell.natVal s.network_bytes_recv,
             Cell.ratVal s.app_A_cpu_percent, Cell.ratVal s.app_A_memory_percent,
             Cell.ratVal s.app_B_cpu_percent, Cell.ratVal s.app_B_memory_percent])
      ∧ (to_csv [demoSnap]).length = [demoSnap].length + 1 :=
  flush_nonempty_format [demoSnap] (by decide)

theorem runLoop_stop (fg bg : String) (interval : ℚ) (script : List TickStep)
    (buf : List Snapshot) :
    runLoop fg bg interval false script buf = (buf, RunExit.stopped) := by
  cases script <;> rfl

theorem runLoop_ok_step (fg bg : String) (interval : ℚ) (inp : TickInput)
    (sig : Bool) (rest : List TickStep) (buf : List Snapshot) :
    runLoop fg bg interval true (okStep inp sig :: rest) buf
      = if interval < 0
          then (buf ++ [collect_snapshot fg bg inp], RunExit.fatalEscape)
          else runLoop fg bg interval (!sig) rest
                 (buf ++ [collect_snapshot fg bg inp]) := rfl

theorem runLoop_signal_all (fg bg : String) (interval : ℚ)
    (hi : 0 ≤ interval) :
    ∀ (inputs : List TickInput) (buf : List Snapshot), inputs ≠ [] →
    runLoop fg bg interval true (mkSignalScript inputs) buf
      = (buf ++ inputs.map (collect_snapshot fg bg), RunExit.stopped) := by
  intro inputs
  induction inputs with
  | nil => exact fun buf h => absurd rfl h
  | cons i rest ih =>
    intro buf _
    cases rest with
    | nil =>
      rw [show mkSignalScript [i] = [okStep i true] from rfl,
        runLoop_ok_step, if_neg (not_lt.mpr hi)]
      rfl
    | cons j rest2 =>
      rw [show mkSignalScript (i :: j :: rest2)
            = okStep i false :: mkSignalScript (j :: rest2) from rfl,
        runLoop_ok_step, if_neg (not_lt.mpr hi)]
      rw [show (!false) = true from rfl,
        ih (buf ++ [collect_snapshot fg bg i]) (by simp)]
      simp

/-- C6: a run of exactly the given ticks that is stopped by a shutdown
signal during the last tick buffers — starting from the empty session —
exactly one snapshot per tick in tick order, exits through the stop flag,
persists exactly those rows, and keeps the rows' timestamps monotonically
non-decreasing whenever the wall clock read on each tick is monotonically
non-decreasing. -/
theorem run_signal_after_n_ticks (fg bg : String) (interval : ℚ)
    (hi : 0 ≤ interval) (inputs : List TickInput) (hne : inputs ≠ [])
    (hmono : List.Chain' (· ≤ ·) (inputs.map TickInput.timestamp)) :
    (run fg bg interval (mkSignalScript inputs)).buffer
        = inputs.map (collect_snapshot fg bg)
      ∧ (run fg bg interval (mkSignalScript inputs)).buffer.length = inputs.length
      ∧ (run fg bg interval (mkSignalScript inputs)).exit = RunExit.stopped
      ∧ (run fg bg interval (mkSignalScript inputs)).output
          = some (FlushResult.wrote (to_csv (inputs.map (collect_snapshot fg bg))))
      ∧ List.Chain' (· ≤ ·)
          ((run fg bg interval (mkSignalScript inputs)).buffer.map Snapshot.timestamp) := by
  have hrl := runLoop_signal_all fg bg interval hi inputs [] hne
  rw [List.nil_append] at hrl
  have hrun : run fg bg interval (mkSignalScript inputs)
      = ⟨inputs.map (collect_snapshot fg bg), .stopped,
         some (flush (inputs.map (collect_snapshot fg bg)))⟩ := by
    unfold run
    rw [hrl]
  rw [hrun]
  have hts : (inputs.map (collect_snapshot fg bg)).map Snapshot.timestamp
      = inputs.map TickInput.timestamp := by
    rw [List.map_map]
    rfl
  refine ⟨rfl, by simp, rfl, ?_, ?_⟩
  · cases inputs with
    | nil => exact absurd rfl hne
    | cons i rest => rfl
  · rw [show (RunResult.mk (inputs.map (collect_snapshot fg bg)) .stopped
        (some (flush (inputs.map (collect_snapshot fg bg))))).buffer
          = inputs.map (collect_snapshot fg bg) from rfl, hts]
    exact hmono

/-- Witness for C6: a concrete two-tick run stopped by a signal during the
second tick. -/
theorem run_signal_after_n_ticks_witness :
    (run "code" "spotify" 2 (mkSignalScript wInputs)).buffer
        = wInputs.map (collect_snapshot "code" "spotify")
      ∧ (run "code" "spotify" 2 (mkSignalScript wInputs)).buffer.length
          = wInputs.length
      ∧ (run "code" "spotify" 2 (mkSignalScript wInputs)).exit = RunExit.stopped
      ∧ (run "code" "spotify" 2 (mkSignalScript wInputs)).output
          = some (FlushResult.wrote
              (to_csv (wInputs.map (collect_snapshot "code" "spotify"))))
      ∧ List.Chain' (· ≤ ·)
          ((run "code" "spotify" 2 (mkSignalScript wInputs)).buffer.map
            Snapshot.timestamp) :=
  run_signal_after_n_ticks "code" "spotify" 2 (by decide) wInputs (by decide)
    (by norm_num [wInputs, demoInput, List.chain'_cons])

theorem runLoop_signal_mid (fg bg : String) (interval : ℚ)
    (hi : 0 ≤ interval) (sig : TickInput) (post : List TickStep) :
    ∀ (pre : List TickInput) (buf : List Snapshot),
    runLoop fg bg interval true
        (pre.map (fun i => okStep i false) ++ okStep sig true :: post) buf
      = (buf ++ (pre ++ [sig]).map (collect_snapshot fg bg), RunExit.stopped) := by
  intro pre
  induction pre with
  | nil =>
    intro buf
    rw [List.map_nil, List.nil_append, runLoop_ok_step, if_neg (not_lt.mpr hi),
      show (!true) = false from rfl, runLoop_stop]
    rfl
  | cons i rest ih =>
    intro buf
    rw [List.map_cons, List.cons_append, runLoop_ok_step,
      if_neg (not_lt.mpr hi), show (!false) = true from rfl, ih]
    simp

/-- C7: whichever tick the interrupt signal arrives during — after any
prefix of signal-free ticks — the handler only flips the stop flag, so the
tick in progress is finished and its fully built snapshot is appended
before the flag is seen at the next loop top: the run stops having buffered
exactly the prefix ticks plus the signal tick, each appended as a complete
snapshot, with nothing after the signal tick executed. -/
theorem signal_mid_tick_preserves_data (fg bg : String) (interval : ℚ)
    (hi : 0 ≤ interval) (pre : List TickInput) (sig : TickInput)
    (post : List TickStep) :
    (run fg bg interval
        (pre.map (fun i => okStep i false) ++ okStep sig true :: post)).buffer
        = (pre ++ [sig]).map (collect_snapshot fg bg)
      ∧ (run fg bg interval
          (pre.map (fun i => okStep i false) ++ okStep sig true :: post)).exit
          = RunExit.stopped
      ∧ (run fg bg interval
          (pre.map (fun i => okStep i false) ++ okStep sig true :: post)).output
          = some (flush ((pre ++ [sig]).map (collect_snapshot fg bg))) := by
  have hrl := runLoop_signal_mid fg bg interval hi sig post pre []
  rw [List.nil_append] at hrl
  unfold run
  rw [hrl]
  exact ⟨rfl, rfl, rfl⟩

/-- Witness for C7: the signal arrives during tick 2 of a concrete run
whose script even has a would-be-fatal tick 3 that is never reached. -/
theorem signal_mid_tick_preserves_data_witness :
    (run "code" "spotify" 2
        ([demoInput 1].map (fun i => okStep i false)
          ++ okStep (demoInput 2) true :: [fatalStep])).buffer
        = ([demoInput 1] ++ [demoInput 2]).map (collect_snapshot "code" "spotify")
      ∧ (run "code" "spotify" 2
          ([demoInput 1].map (fun i => okStep i false)
            ++ okStep (demoInput 2) true :: [fatalStep])).exit = RunExit.stopped
      ∧ (run "code" "spotify" 2
          ([demoInput 1].map (fun i => okStep i false)
            ++ okStep (demoInput 2) true :: [fatalStep])).output
          = some (flush (([demoInput 1] ++ [demoInput 2]).map
              (collect_snapshot "code" "spotify"))) :=
  signal_mid_tick_preserves_data "code" "spotify" 2 (by decide)
    [demoInput 1] (demoInput 2) [fatalStep]

/-- C1 (code bug): after four successful ticks a fatal provider error on
tick 5 makes the exception escape the `try` block — only
`KeyboardInterrupt` is caught, and the save code on lines 166–174 is not in
a `finally` — so `run` is left with the four buffered snapshots never
persisted: the flush does not happen, contradicting the claim that exactly
the buffered rows survive a fatal error. -/
theorem fatal_on_tick5_skips_flush :
    (run "code" "spotify" 2 fatalScript).buffer.length = 4
      ∧ (run "code" "spotify" 2 fatalScript).exit = RunExit.fatalEscape
      ∧ (run "code" "spotify" 2 fatalScript).output = none :=
  ⟨rfl, rfl, rfl⟩

/-- C2 (code bug): neither `main` nor `SystemMonitor.__init__` validates
the interval, so with `interval = 0` the monitor enters the running loop,
collects a sample, and on shutdown writes the output file — it does not
refuse to start; with `interval = -1` it still enters the loop and collects
a sample before `time.sleep` raises an uncaught `ValueError`. -/
theorem interval_zero_still_runs :
    (run "code" "spotify" 0 [okStep (demoInput 1) true]).buffer.length = 1
      ∧ (run "code" "spotify" 0 [okStep (demoInput 1) true]).exit
          = RunExit.stopped
      ∧ (run "code" "spotify" 0 [okStep (demoInput 1) true]).output
          = some (FlushResult.wrote
              (to_csv [collect_snapshot "code" "spotify" (demoInput 1)]))
      ∧ (run "code" "spotify" (-1) [okStep (demoInput 1) false]).buffer.length = 1
      ∧ (run "code" "spotify" (-1) [okStep (demoInput 1) false]).exit
          = RunExit.fatalEscape
      ∧ (run "code" "spotify" (-1) [okStep (demoInput 1) false]).output = none :=
  ⟨rfl, rfl, rfl, rfl, rfl, rfl⟩

end CollectData
